import Mathlib

/-!
Verification of the GDPR compliance validator service (`gdpr_validator.py`).

The Python source is shallowly embedded here:

* `PyVal` models the values produced by Python's `json` module (str, int,
  float, bool, None, list, dict).  Python `str` is modelled as `List Char`
  (a sequence of Unicode scalar values); lone surrogates, which Lean's
  `Char` cannot represent, are mapped to `Char.ofNat`'s fallback value and
  are never produced or inspected by any claim.  Float values are modelled
  as exact rationals; no claim inspects a float's numeric value, only its
  Python type, so `NaN` and the infinities are represented by type alone.
* `json_loads` models `json.loads` (CPython's scanner: strict strings with
  the full escape set including surrogate pairs, the JSON number grammar,
  the `NaN`/`Infinity`/`-Infinity` constants, `', \t\n\r'` whitespace, and
  rejection of trailing data).  Recursion is by explicit fuel; one unit of
  fuel is spent per nesting step and at least one input character is
  consumed before each recursive call, so `length + 1` fuel never runs out.
* `extractJson`, `fallbackResult`, `applyDefaults`, `normalizeResponse`
  model lines 458-484 of the source: the brace-extraction parse with its
  whole-text fallback, the `except json.JSONDecodeError` synthesis
  fallback, and the six `result.setdefault` calls (raising
  `AttributeError` on a non-dict value).
* `validate` models the `/validate` handler (lines 415-489).  The Groq
  chat-completion call (lines 438-455) is an opaque external service and
  is modelled by the handler's `provider` argument: `Except.ok t` is the
  reply text `chat_completion.choices[0].message.content`, `Except.error e`
  is an exception with message `e` raised by the call.  The prompt built
  on lines 429-436 is sent only to that opaque service, so it is modelled
  separately by `buildPrompt`/`compliancePrompt` (lines 22-39).
* `dumpsResult` models `json.dumps` applied to a fully populated result
  dict (`ensure_ascii` escaping, `', '`/`': '` separators).
-/

namespace GdprValidator

/-- Python values as produced by `json.loads` and consumed by `jsonify`. -/
inductive PyVal where
  | vNone : PyVal
  | vBool : Bool → PyVal
  | vInt : Int → PyVal
  | vFloat : Rat → PyVal
  | vStr : List Char → PyVal
  | vList : List PyVal → PyVal
  | vObj : List (List Char × PyVal) → PyVal

/-- The JSON whitespace characters, Python's `json.decoder.WHITESPACE_STR`. -/
def isWs (c : Char) : Bool :=
  c = ' ' || c = '\t' || c = '\n' || c = '\r'

/-- Skip leading JSON whitespace. -/
def skipWs : List Char → List Char
  | [] => []
  | c :: rest => if isWs c then skipWs rest else c :: rest

/-- Value of one hexadecimal digit, as accepted by the `\uXXXX` escape. -/
def hexVal? (c : Char) : Option Nat :=
  if '0' ≤ c ∧ c ≤ '9' then some (c.toNat - 48)
  else if 'a' ≤ c ∧ c ≤ 'f' then some (c.toNat - 87)
  else if 'A' ≤ c ∧ c ≤ 'F' then some (c.toNat - 55)
  else none

/-- Read exactly four hexadecimal digits (the `XXXX` of a `\uXXXX` escape). -/
def parse4Hex : List Char → Option (Nat × List Char)
  | a :: b :: c :: d :: rest =>
    match hexVal? a, hexVal? b, hexVal? c, hexVal? d with
    | some x, some y, some z, some w => some (x * 4096 + y * 256 + z * 16 + w, rest)
    | _, _, _, _ => none
  | _ => none

/-- Prepend a decoded character to a string-parse result. -/
def withCons (c : Char) : Option (List Char × List Char) → Option (List Char × List Char)
  | some (s, r) => some (c :: s, r)
  | none => none

/-- A `\uXXXX` escape: four hex digits, then CPython's surrogate handling:
a high surrogate immediately followed by a `\u` low surrogate escape is
combined into one scalar; a second `\u` escape with bad hex raises; a
non-low-surrogate second escape leaves a lone high surrogate and is
re-scanned.  `k` is the continuation scanning the remainder. -/
def parseUEscape (k : List Char → Option (List Char × List Char)) (r : List Char) :
    Option (List Char × List Char) :=
  match parse4Hex r with
  | none => none
  | some (n, r1) =>
    if 0xD800 ≤ n ∧ n ≤ 0xDBFF then
      match r1 with
      | a :: b :: r2 =>
        if a = '\\' ∧ b = 'u' then
          match parse4Hex r2 with
          | none => none
          | some (m, r3) =>
            if 0xDC00 ≤ m ∧ m ≤ 0xDFFF then
              withCons (Char.ofNat (0x10000 + (n - 0xD800) * 0x400 + (m - 0xDC00))) (k r3)
            else withCons (Char.ofNat n) (k (a :: b :: r2))
        else withCons (Char.ofNat n) (k (a :: b :: r2))
      | r1' => withCons (Char.ofNat n) (k r1')
    else withCons (Char.ofNat n) (k r1)

/-- Body of a JSON string after its opening quote, CPython `scanstring` in
strict mode: raw control characters are rejected and the escapes
`\" \\ \/ \b \f \n \r \t \uXXXX` are decoded. -/
def parseStrBody : Nat → List Char → Option (List Char × List Char)
  | 0, _ => none
  | _ + 1, [] => none
  | f + 1, c :: rest =>
    if c = '"' then some ([], rest)
    else if c = '\\' then
      match rest with
      | [] => none
      | e :: r =>
        if e = '"' then withCons '"' (parseStrBody f r)
        else if e = '\\' then withCons '\\' (parseStrBody f r)
        else if e = '/' then withCons '/' (parseStrBody f r)
        else if e = 'b' then withCons (Char.ofNat 8) (parseStrBody f r)
        else if e = 'f' then withCons (Char.ofNat 12) (parseStrBody f r)
        else if e = 'n' then withCons (Char.ofNat 10) (parseStrBody f r)
        else if e = 'r' then withCons (Char.ofNat 13) (parseStrBody f r)
        else if e = 't' then withCons (Char.ofNat 9) (parseStrBody f r)
        else if e = 'u' then parseUEscape (parseStrBody f) r
        else none
    else if c.toNat < 0x20 then none
    else withCons c (parseStrBody f rest)

/-- Split off a maximal run of decimal digits. -/
def digitRun : List Char → List Char × List Char
  | [] => ([], [])
  | c :: rest =>
    if c.isDigit then
      let p := digitRun rest
      (c :: p.1, p.2)
    else ([], c :: rest)

/-- Numeric value of a run of decimal digits. -/
def natFromDigits (ds : List Char) : Nat :=
  ds.foldl (fun a c => a * 10 + (c.toNat - 48)) 0

/-- Fraction and exponent parts of a JSON number, after the integer part:
the regex `(\.\d+)?([eE][-+]?\d+)?`.  Unmatched partial suffixes (a bare
`.` or `e`) are left in the remainder, as regex matching does. -/
def numberTail (neg : Bool) (ip : List Char) (r : List Char) : PyVal × List Char :=
  let fr : Option (List Char) × List Char :=
    match r with
    | '.' :: d :: rest =>
      if d.isDigit then
        let p := digitRun rest
        (some (d :: p.1), p.2)
      else (none, r)
    | _ => (none, r)
  let ex : Option (Bool × List Char) × List Char :=
    match fr.2 with
    | e :: tail =>
      if e = 'e' ∨ e = 'E' then
        let st : Bool × List Char :=
          match tail with
          | '+' :: t => (false, t)
          | '-' :: t => (true, t)
          | _ => (false, tail)
        match st.2 with
        | d :: t2 =>
          if d.isDigit then
            let p := digitRun t2
            (some (st.1, d :: p.1), p.2)
          else (none, fr.2)
        | [] => (none, fr.2)
      else (none, fr.2)
    | [] => (none, fr.2)
  match fr.1, ex.1 with
  | none, none =>
    (PyVal.vInt (if neg then -(natFromDigits ip : Int) else (natFromDigits ip : Int)), ex.2)
  | frd, exd =>
    let fds := frd.getD []
    let mantissa : Rat :=
      (natFromDigits ip : Rat) + (natFromDigits fds : Rat) / (10 : Rat) ^ fds.length
    let expo : Int :=
      match exd with
      | some (esgn, eds) => if esgn then -(natFromDigits eds : Int) else (natFromDigits eds : Int)
      | none => 0
    (PyVal.vFloat ((if neg then -1 else 1) * mantissa * (10 : Rat) ^ expo), ex.2)

/-- A JSON number at the head of the input, per the scanner's `NUMBER_RE`
regex `(-?(?:0|[1-9]\d*))(\.\d+)?([eE][-+]?\d+)?`; integer-only matches
give a Python `int`, others a `float`. -/
def parseNumber (input : List Char) : Option (PyVal × List Char) :=
  let sr : Bool × List Char :=
    match input with
    | '-' :: r => (true, r)
    | _ => (false, input)
  match sr.2 with
  | [] => none
  | c :: r1 =>
    if c = '0' then some (numberTail sr.1 [c] r1)
    else if c.isDigit then
      let p := digitRun r1
      some (numberTail sr.1 (c :: p.1) p.2)
    else none

/-- Insert into the pair list as `dict(pairs)` does: a duplicate key keeps
its first position but takes the latest value; a new key is appended. -/
def dictSet (d : List (List Char × PyVal)) (k : List Char) (v : PyVal) :
    List (List Char × PyVal) :=
  match d with
  | [] => [(k, v)]
  | (k', v') :: tl => if k' = k then (k', v) :: tl else (k', v') :: dictSet tl k v

/-- Parser mode: a single value, the items of an array after `[`, or the
members of an object positioned just after a key's opening quote. -/
inductive PMode where
  | val : PMode
  | items : List PyVal → PMode
  | members : List (List Char × PyVal) → PMode

/-- The recursive core of `json.loads`' scanner.  Fuel is spent on each
recursive step; every step first consumes at least one input character, so
`length input + 1` fuel is always sufficient. -/
def parseCore : Nat → PMode → List Char → Option (PyVal × List Char)
  | 0, _, _ => none
  | f + 1, PMode.val, input =>
    match input with
    | '"' :: rest =>
      (match parseStrBody (rest.length + 1) rest with
       | some (s, r) => some (PyVal.vStr s, r)
       | none => none)
    | '\x7b' :: rest =>
      (match skipWs rest with
       | '\x7d' :: r => some (PyVal.vObj [], r)
       | '"' :: r => parseCore f (PMode.members []) r
       | _ => none)
    | '[' :: rest =>
      (match skipWs rest with
       | ']' :: r => some (PyVal.vList [], r)
       | r => parseCore f (PMode.items []) r)
    | 'n' :: 'u' :: 'l' :: 'l' :: rest => some (PyVal.vNone, rest)
    | 't' :: 'r' :: 'u' :: 'e' :: rest => some (PyVal.vBool true, rest)
    | 'f' :: 'a' :: 'l' :: 's' :: 'e' :: rest => some (PyVal.vBool false, rest)
    | 'N' :: 'a' :: 'N' :: rest => some (PyVal.vFloat 0, rest)
    | 'I' :: 'n' :: 'f' :: 'i' :: 'n' :: 'i' :: 't' :: 'y' :: rest =>
      some (PyVal.vFloat 0, rest)
    | '-' :: 'I' :: 'n' :: 'f' :: 'i' :: 'n' :: 'i' :: 't' :: 'y' :: rest =>
      some (PyVal.vFloat 0, rest)
    | _ => parseNumber input
  | f + 1, PMode.items acc, input =>
    match parseCore f PMode.val input with
    | none => none
    | some (v, r) =>
      match skipWs r with
      | ']' :: r2 => some (PyVal.vList (acc ++ [v]), r2)
      | ',' :: r2 => parseCore f (PMode.items (acc ++ [v])) (skipWs r2)
      | _ => none
  | f + 1, PMode.members acc, input =>
    match parseStrBody (input.length + 1) input with
    | none => none
    | some (key, r1) =>
      match skipWs r1 with
      | ':' :: r2 =>
        (match parseCore f PMode.val (skipWs r2) with
         | none => none
         | some (v, r3) =>
           match skipWs r3 with
           | '\x7d' :: r4 => some (PyVal.vObj (dictSet acc key v), r4)
           | ',' :: r4 =>
             (match skipWs r4 with
              | '"' :: r5 => parseCore f (PMode.members (dictSet acc key v)) r5
              | _ => none)
           | _ => none)
      | _ => none

/-- Model of `json.loads`: skip whitespace, scan one value, reject
trailing non-whitespace (`Extra data`).  `none` is a `json.JSONDecodeError`. -/
def json_loads (s : List Char) : Option PyVal :=
  let t := skipWs s
  match parseCore (t.length + 1) PMode.val t with
  | some (v, r) => if skipWs r = [] then some v else none
  | none => none

/-- Model of Python `str.find` for a single character: first index, `-1`
when absent. -/
def strFindAux (c : Char) : List Char → Nat → Option Nat
  | [], _ => none
  | x :: xs, i => if x = c then some i else strFindAux c xs (i + 1)

/-- Python `response_text.find(c)`. -/
def strFind (s : List Char) (c : Char) : Int :=
  match strFindAux c s 0 with
  | some i => (i : Int)
  | none => -1

/-- Python `response_text.rfind(c)`: highest index, `-1` when absent. -/
def strRfind (s : List Char) (c : Char) : Int :=
  match strFindAux c s.reverse 0 with
  | some i => (s.length : Int) - 1 - (i : Int)
  | none => -1

/-- Python `response_text[start:end]` for the in-range nonnegative indices
produced on the taken branch (`start = find(..) ≥ 0`, `end = rfind(..)+1`). -/
def strSlice (s : List Char) (a b : Int) : List Char :=
  (s.take b.toNat).drop a.toNat

/-- Lines 459-466 of the source: locate the first brace and the last
closing brace; if that span is nonempty parse it, otherwise parse the whole
reply text. -/
def extractJson (response_text : List Char) : Option PyVal :=
  let start := strFind response_text '\x7b'
  let e := strRfind response_text '\x7d' + 1
  if start ≠ -1 ∧ e > start then
    json_loads (strSlice response_text start e)
  else
    json_loads response_text

/-- The parse order that spec section 4.2 step 1 describes: strict parse of
the whole text first, brace extraction only on failure.  Written from the
spec's words, for comparison with `extractJson` (the code's order). -/
def extractJsonSpecOrder (response_text : List Char) : Option PyVal :=
  match json_loads response_text with
  | some v => some v
  | none =>
    let start := strFind response_text '\x7b'
    let e := strRfind response_text '\x7d' + 1
    if start ≠ -1 ∧ e > start then
      json_loads (strSlice response_text start e)
    else
      none

/-- Lines 469-476: the synthesized record used when JSON decoding fails. -/
def fallbackResult (response_text : List Char) : List (List Char × PyVal) :=
  [("status".data, PyVal.vStr "Analysis Complete".data),
   ("requirements_met".data, PyVal.vList []),
   ("requirements_missed".data, PyVal.vList []),
   ("recommendations".data, PyVal.vList []),
   ("risk_level".data, PyVal.vStr "Medium".data),
   ("explanation".data, PyVal.vStr response_text)]

/-- Python `dict.setdefault`: keep a present key unchanged, append an
absent key with the default value. -/
def setdefault (d : List (List Char × PyVal)) (k : List Char) (v : PyVal) :
    List (List Char × PyVal) :=
  match d.lookup k with
  | some _ => d
  | none => d ++ [(k, v)]

/-- Lines 479-484: the six `result.setdefault` calls, in source order. -/
def applyDefaults (d : List (List Char × PyVal)) : List (List Char × PyVal) :=
  let d1 := setdefault d "status".data (PyVal.vStr "Unknown".data)
  let d2 := setdefault d1 "requirements_met".data (PyVal.vList [])
  let d3 := setdefault d2 "requirements_missed".data (PyVal.vList [])
  let d4 := setdefault d3 "recommendations".data (PyVal.vList [])
  let d5 := setdefault d4 "risk_level".data (PyVal.vStr "Medium".data)
  setdefault d5 "explanation".data (PyVal.vStr "No explanation provided".data)

/-- All six `ComplianceResult` fields are present in the record (the
guarantee the defaulting step is there to provide). -/
def fullyPopulated (d : List (List Char × PyVal)) : Bool :=
  (d.lookup "status".data).isSome && (d.lookup "requirements_met".data).isSome &&
  (d.lookup "requirements_missed".data).isSome && (d.lookup "recommendations".data).isSome &&
  (d.lookup "risk_level".data).isSome && (d.lookup "explanation".data).isSome

/-- Python type name of a value, as it appears in an `AttributeError`. -/
def pyTypeName : PyVal → List Char
  | PyVal.vNone => "NoneType".data
  | PyVal.vBool _ => "bool".data
  | PyVal.vInt _ => "int".data
  | PyVal.vFloat _ => "float".data
  | PyVal.vStr _ => "str".data
  | PyVal.vList _ => "list".data
  | PyVal.vObj _ => "dict".data

/-- An exception escaping the normalization region to the handler's
`except Exception` boundary.  `json.JSONDecodeError` never escapes (it is
caught on line 467); calling `.setdefault` on a non-dict raises
`AttributeError`. -/
inductive PyExc where
  | attributeError : List Char → PyExc

/-- Python `str(e)` for the modelled exception. -/
def excStr : PyExc → List Char
  | PyExc.attributeError ty =>
    "\x27".data ++ ty ++ "\x27 object has no attribute \x27setdefault\x27".data

/-- Lines 458-484 as one function: brace-directed JSON extraction, the
`except json.JSONDecodeError` synthesis fallback, then the six
`setdefault` calls (which raise on a non-dict parse result). -/
def normalizeResponse (response_text : List Char) :
    Except PyExc (List (List Char × PyVal)) :=
  let result : PyVal :=
    match extractJson response_text with
    | some v => v
    | none => PyVal.vObj (fallbackResult response_text)
  match result with
  | PyVal.vObj kvs => Except.ok (applyDefaults kvs)
  | v => Except.error (PyExc.attributeError (pyTypeName v))

/-- Python truthiness, as `all([...])` applies it to the request fields. -/
def pyTruthy : PyVal → Bool
  | PyVal.vNone => false
  | PyVal.vBool b => b
  | PyVal.vInt n => n != 0
  | PyVal.vFloat q => q != 0
  | PyVal.vStr s => !s.isEmpty
  | PyVal.vList xs => !xs.isEmpty
  | PyVal.vObj kvs => !kvs.isEmpty

/-- Python `value is None`. -/
def isPyNone : PyVal → Bool
  | PyVal.vNone => true
  | _ => false

/-- Python `data.get(k)`: `None` when the key is absent. -/
def dataGet (d : List (List Char × PyVal)) (k : List Char) : PyVal :=
  (d.lookup k).getD PyVal.vNone

/-- An HTTP response: status code and JSON body. -/
structure HttpResponse where
  status : Nat
  body : PyVal

/-- Body of an error response, `jsonify(dict(error=msg))`. -/
def errorBody (msg : List Char) : PyVal :=
  PyVal.vObj [("error".data, PyVal.vStr msg)]

/-- Line 425: `not all([article, request_type, org_response,
response_time is not None])`. -/
def missingFields (data : List (List Char × PyVal)) : Bool :=
  !(pyTruthy (dataGet data "article".data) &&
    pyTruthy (dataGet data "request_type".data) &&
    pyTruthy (dataGet data "org_response".data) &&
    !(isPyNone (dataGet data "response_time".data)))

/-- Lines 438-489 after field validation: the provider call's outcome is
normalized or its exception is surfaced by the handler's
`except Exception` as a 500 `Validation error` response. -/
def handleProvider (provider : Except (List Char) (List Char)) : HttpResponse :=
  match provider with
  | Except.error e => ⟨500, errorBody ("Validation error: ".data ++ e)⟩
  | Except.ok response_text =>
    match normalizeResponse response_text with
    | Except.ok result => ⟨200, PyVal.vObj result⟩
    | Except.error exc => ⟨500, errorBody ("Validation error: ".data ++ excStr exc)⟩

/-- The `/validate` handler (lines 415-489).  `data` is the parsed JSON
request body; `provider` is the outcome of the opaque Groq chat-completion
call (lines 438-455). -/
def validate (data : List (List Char × PyVal))
    (provider : Except (List Char) (List Char)) : HttpResponse :=
  if missingFields data then ⟨400, errorBody "Missing required fields".data⟩
  else handleProvider provider

/-- Lines 13-20: the static article catalog. -/
def GDPR_ARTICLES : List (List Char × List Char) :=
  [("15".data, "Right of Access - Subject has right to obtain confirmation of data processing and access to personal data".data),
   ("16".data, "Right to Rectification - Subject has right to correct inaccurate personal data".data),
   ("17".data, "Right to Erasure (Right to be Forgotten) - Subject has right to request deletion of personal data".data),
   ("18".data, "Right to Restriction of Processing - Subject has right to restrict processing under certain conditions".data),
   ("19".data, "Right to Data Portability - Subject has right to receive data in structured, machine-readable format".data),
   ("20".data, "Right to Object - Subject has right to object to processing for legitimate interests or direct marketing".data)]

/-- Decimal digits of a natural number (fuel-based so it reduces). -/
def natDigitsAux : Nat → Nat → List Char
  | 0, _ => []
  | _ + 1, 0 => []
  | f + 1, n => natDigitsAux f (n / 10) ++ [Char.ofNat (48 + n % 10)]

/-- Python `str` of a nonnegative integer. -/
def natRepr (n : Nat) : List Char :=
  if n = 0 then ['0'] else natDigitsAux (n + 1) n

/-- Python `str` of an integer. -/
def intRepr : Int → List Char
  | Int.ofNat n => natRepr n
  | Int.negSucc n => '-' :: natRepr (n + 1)

/-- Lines 22-39: `COMPLIANCE_PROMPT` with its six format slots filled. -/
def compliancePrompt (article context request_type org_response response_time
    additional_context : List Char) : List Char :=
  "You are a GDPR compliance expert. Analyze the following request/response scenario and validate compliance with GDPR Article ".data ++
  article ++
  ".\n\nArticle ".data ++
  article ++
  " Context: ".data ++
  context ++
  "\n\nScenario:\nRequest Type: ".data ++
  request_type ++
  "\nOrganization Response: ".data ++
  org_response ++
  "\nResponse Time: ".data ++
  response_time ++
  " days\nAdditional Context: ".data ++
  additional_context ++
  "\n\nProvide a detailed compliance validation including:\n1. Compliance Status (Compliant/Non-Compliant/Partially Compliant)\n2. Key Requirements Met\n3. Key Requirements Missed (if any)\n4. Specific Recommendations\n5. Risk Level (Low/Medium/High)\n\nFormat your response as JSON with keys: status, requirements_met, requirements_missed, recommendations, risk_level, explanation".data

/-- Lines 429-436: the Prompt Builder.  `GDPR_ARTICLES.get(article,
'Unknown article')` supplies the context slot; `str()` is applied to the
integer response time by `format`. -/
def buildPrompt (article request_type org_response : List Char)
    (response_time : Int) (additional_context : List Char) : List Char :=
  compliancePrompt article
    ((GDPR_ARTICLES.lookup article).getD "Unknown article".data)
    request_type org_response (intRepr response_time) additional_context

/-- A fully populated compliance result: all six fields present, with the
string / string-list types the data model gives them. -/
structure ComplianceResult where
  status : List Char
  requirements_met : List (List Char)
  requirements_missed : List (List Char)
  recommendations : List (List Char)
  risk_level : List Char
  explanation : List Char

/-- The result record as the Python dict it denotes, in field order. -/
def toDict (X : ComplianceResult) : List (List Char × PyVal) :=
  [("status".data, PyVal.vStr X.status),
   ("requirements_met".data, PyVal.vList (X.requirements_met.map PyVal.vStr)),
   ("requirements_missed".data, PyVal.vList (X.requirements_missed.map PyVal.vStr)),
   ("recommendations".data, PyVal.vList (X.recommendations.map PyVal.vStr)),
   ("risk_level".data, PyVal.vStr X.risk_level),
   ("explanation".data, PyVal.vStr X.explanation)]

/-- Lowercase hexadecimal digit. -/
def hexDigit (n : Nat) : Char :=
  Char.ofNat (if n < 10 then 48 + n else 87 + n)

/-- Four lowercase hexadecimal digits, `'%04x'`. -/
def hex4 (n : Nat) : List Char :=
  [hexDigit (n / 4096 % 16), hexDigit (n / 256 % 16), hexDigit (n / 16 % 16), hexDigit (n % 16)]

/-- `json.dumps` encoding of one character with `ensure_ascii=True`:
the short escapes, printable ASCII verbatim, `\uXXXX` otherwise, and a
surrogate pair for astral scalars. -/
def encodeChar (c : Char) : List Char :=
  if c = '"' then ['\\', '"']
  else if c = '\\' then ['\\', '\\']
  else if c = Char.ofNat 8 then ['\\', 'b']
  else if c = Char.ofNat 9 then ['\\', 't']
  else if c = Char.ofNat 10 then ['\\', 'n']
  else if c = Char.ofNat 12 then ['\\', 'f']
  else if c = Char.ofNat 13 then ['\\', 'r']
  else if 0x20 ≤ c.toNat ∧ c.toNat ≤ 0x7e then [c]
  else if c.toNat < 0x10000 then '\\' :: 'u' :: hex4 c.toNat
  else ('\\' :: 'u' :: hex4 (0xD800 + (c.toNat - 0x10000) / 0x400)) ++
       ('\\' :: 'u' :: hex4 (0xDC00 + (c.toNat - 0x10000) % 0x400))

/-- Encoded body of a JSON string. -/
def encBody (s : List Char) : List Char :=
  s.flatMap encodeChar

/-- `json.dumps` of a Python string. -/
def encodeStr (s : List Char) : List Char :=
  '"' :: (encBody s ++ ['"'])

/-- Join with a separator, `sep.join`. -/
def sepJoin (sep : List Char) : List (List Char) → List Char
  | [] => []
  | [x] => x
  | x :: y :: tl => x ++ (sep ++ sepJoin sep (y :: tl))

/-- `json.dumps` of a list of strings, with the default `', '` separator. -/
def encodeStrList (xs : List (List Char)) : List Char :=
  '[' :: (sepJoin [',', ' '] (xs.map encodeStr) ++ [']'])

/-- The member text of `json.dumps(X)`, keys in insertion order with the
default `': '` and `', '` separators. -/
def dumpsBody (X : ComplianceResult) : List Char :=
  encodeStr "status".data ++
  [':', ' '] ++
  encodeStr X.status ++
  [',', ' '] ++
  encodeStr "requirements_met".data ++
  [':', ' '] ++
  encodeStrList X.requirements_met ++
  [',', ' '] ++
  encodeStr "requirements_missed".data ++
  [':', ' '] ++
  encodeStrList X.requirements_missed ++
  [',', ' '] ++
  encodeStr "recommendations".data ++
  [':', ' '] ++
  encodeStrList X.recommendations ++
  [',', ' '] ++
  encodeStr "risk_level".data ++
  [':', ' '] ++
  encodeStr X.risk_level ++
  [',', ' '] ++
  encodeStr "explanation".data ++
  [':', ' '] ++
  encodeStr X.explanation

/-- `json.dumps(X)` for a fully populated result record. -/
def dumpsResult (X : ComplianceResult) : List Char :=
  '\x7b' :: (dumpsBody X ++ ['\x7d'])

/-! ### Character and hex helper lemmas -/

theorem char_ofNat_toNat (c : Char) : Char.ofNat c.toNat = c := by
  have h : c.toNat.isValidChar := c.valid
  apply Char.ext
  apply UInt32.ext
  simp only [Char.ofNat, Char.toNat]
  split
  · simp [Char.ofNatAux, UInt32.ofNat', UInt32.toNat]
  · exact absurd h (by assumption)

theorem char_toNat_valid (c : Char) :
    c.toNat < 55296 ∨ (57344 ≤ c.toNat ∧ c.toNat < 1114112) :=
  c.valid

theorem hexVal_hexDigit : ∀ d : Nat, d < 16 → hexVal? (hexDigit d) = some d := by decide

theorem parse4Hex_hex4 (n : Nat) (h : n < 65536) (R : List Char) :
    parse4Hex (hex4 n ++ R) = some (n, R) := by
  have h1 : n / 4096 % 16 < 16 := Nat.mod_lt _ (by omega)
  have h2 : n / 256 % 16 < 16 := Nat.mod_lt _ (by omega)
  have h3 : n / 16 % 16 < 16 := Nat.mod_lt _ (by omega)
  have h4 : n % 16 < 16 := Nat.mod_lt _ (by omega)
  simp only [hex4, List.cons_append, List.nil_append, parse4Hex,
    hexVal_hexDigit _ h1, hexVal_hexDigit _ h2, hexVal_hexDigit _ h3, hexVal_hexDigit _ h4,
    Option.some.injEq, Prod.mk.injEq]
  exact ⟨by omega, trivial⟩

theorem one_le_length_encodeChar (c : Char) : 1 ≤ (encodeChar c).length := by
  unfold encodeChar
  split <;> try simp [hex4]
  split <;> try simp [hex4]
  split <;> try simp [hex4]
  split <;> try simp [hex4]
  split <;> try simp [hex4]
  split <;> try simp [hex4]
  split <;> try simp [hex4]
  split <;> try simp [hex4]
  split <;> simp [hex4]

theorem length_le_encBody (s : List Char) : s.length ≤ (encBody s).length := by
  induction s with
  | nil => simp [encBody]
  | cons c t ih =>
    have hc := one_le_length_encodeChar c
    simp only [encBody, List.flatMap_cons, List.length_append, List.length_cons] at *
    omega

/-! ### String scanning: reduction equations and the encoder round trip -/

theorem psb_close (f : Nat) (X : List Char) :
    parseStrBody (f + 1) ('"' :: X) = some ([], X) := rfl

theorem psb_esc_quot (f : Nat) (X : List Char) :
    parseStrBody (f + 1) ('\\' :: ('"' :: X)) = withCons '"' (parseStrBody f X) := rfl

theorem psb_esc_bs (f : Nat) (X : List Char) :
    parseStrBody (f + 1) ('\\' :: ('\\' :: X)) = withCons '\\' (parseStrBody f X) := rfl

theorem psb_esc_b (f : Nat) (X : List Char) :
    parseStrBody (f + 1) ('\\' :: ('b' :: X)) = withCons (Char.ofNat 8) (parseStrBody f X) := rfl

theorem psb_esc_t (f : Nat) (X : List Char) :
    parseStrBody (f + 1) ('\\' :: ('t' :: X)) = withCons (Char.ofNat 9) (parseStrBody f X) := rfl

theorem psb_esc_n (f : Nat) (X : List Char) :
    parseStrBody (f + 1) ('\\' :: ('n' :: X)) = withCons (Char.ofNat 10) (parseStrBody f X) := rfl

theorem psb_esc_f (f : Nat) (X : List Char) :
    parseStrBody (f + 1) ('\\' :: ('f' :: X)) = withCons (Char.ofNat 12) (parseStrBody f X) := rfl

theorem psb_esc_r (f : Nat) (X : List Char) :
    parseStrBody (f + 1) ('\\' :: ('r' :: X)) = withCons (Char.ofNat 13) (parseStrBody f X) := rfl

theorem psb_esc_u (f : Nat) (X : List Char) :
    parseStrBody (f + 1) ('\\' :: ('u' :: X)) = parseUEscape (parseStrBody f) X := rfl

theorem psb_other (f : Nat) (c : Char) (X : List Char)
    (h1 : ¬ c = '"') (h2 : ¬ c = '\\') (h3 : ¬ c.toNat < 32) :
    parseStrBody (f + 1) (c :: X) = withCons c (parseStrBody f X) := by
  simp only [parseStrBody, if_neg h1, if_neg h2, if_neg h3]

theorem parseUEscape_bmp (k : List Char → Option (List Char × List Char)) (n : Nat)
    (R : List Char) (hn : n < 65536) (hs : ¬ (55296 ≤ n ∧ n ≤ 56319)) :
    parseUEscape k (hex4 n ++ R) = withCons (Char.ofNat n) (k R) := by
  simp only [parseUEscape, parse4Hex_hex4 n hn R, if_neg hs]

theorem parseUEscape_sur (k : List Char → Option (List Char × List Char)) (n m : Nat)
    (R : List Char) (hn : 55296 ≤ n ∧ n ≤ 56319) (hm : 56320 ≤ m ∧ m ≤ 57343) :
    parseUEscape k (hex4 n ++ ('\\' :: ('u' :: (hex4 m ++ R)))) =
      withCons (Char.ofNat (65536 + (n - 55296) * 1024 + (m - 56320))) (k R) := by
  have hn' : n < 65536 := by omega
  have hm' : m < 65536 := by omega
  simp only [parseUEscape, parse4Hex_hex4 n hn' _, if_pos hn,
    parse4Hex_hex4 m hm' R, if_pos hm]
  simp

theorem encodeChar_quot : encodeChar '"' = ['\\', '"'] := rfl

theorem encodeChar_bs : encodeChar '\\' = ['\\', '\\'] := rfl

theorem encodeChar_b : encodeChar (Char.ofNat 8) = ['\\', 'b'] := rfl

theorem encodeChar_t : encodeChar (Char.ofNat 9) = ['\\', 't'] := rfl

theorem encodeChar_n : encodeChar (Char.ofNat 10) = ['\\', 'n'] := rfl

theorem encodeChar_f : encodeChar (Char.ofNat 12) = ['\\', 'f'] := rfl

theorem encodeChar_r : encodeChar (Char.ofNat 13) = ['\\', 'r'] := rfl

theorem encodeChar_print (c : Char) (h1 : ¬ c = '"') (h2 : ¬ c = '\\')
    (h8 : 32 ≤ c.toNat ∧ c.toNat ≤ 126) : encodeChar c = [c] := by
  have h3 : ¬ c = Char.ofNat 8 := by intro e; subst e; exact absurd h8 (by decide)
  have h4 : ¬ c = Char.ofNat 9 := by intro e; subst e; exact absurd h8 (by decide)
  have h5 : ¬ c = Char.ofNat 10 := by intro e; subst e; exact absurd h8 (by decide)
  have h6 : ¬ c = Char.ofNat 12 := by intro e; subst e; exact absurd h8 (by decide)
  have h7 : ¬ c = Char.ofNat 13 := by intro e; subst e; exact absurd h8 (by decide)
  simp only [encodeChar, if_neg h1, if_neg h2, if_neg h3, if_neg h4, if_neg h5, if_neg h6,
    if_neg h7, if_pos h8]

theorem char_ofNat_eight : (Char.ofNat 8).toNat = 8 := by decide

theorem encodeChar_ctl (c : Char) (h1 : ¬ c = '"') (h2 : ¬ c = '\\')
    (h3 : ¬ c = Char.ofNat 8) (h4 : ¬ c = Char.ofNat 9) (h5 : ¬ c = Char.ofNat 10)
    (h6 : ¬ c = Char.ofNat 12) (h7 : ¬ c = Char.ofNat 13)
    (h8 : ¬ (32 ≤ c.toNat ∧ c.toNat ≤ 126)) (h9 : c.toNat < 65536) :
    encodeChar c = '\\' :: ('u' :: hex4 c.toNat) := by
  simp only [encodeChar, if_neg h1, if_neg h2, if_neg h3, if_neg h4, if_neg h5, if_neg h6,
    if_neg h7, if_neg h8, if_pos h9]

theorem encodeChar_astral (c : Char) (h : 65536 ≤ c.toNat) :
    encodeChar c =
      ('\\' :: ('u' :: hex4 (55296 + (c.toNat - 65536) / 1024))) ++
      ('\\' :: ('u' :: hex4 (56320 + (c.toNat - 65536) % 1024))) := by
  have h1 : ¬ c = '"' := by intro e; subst e; exact absurd h (by decide)
  have h2 : ¬ c = '\\' := by intro e; subst e; exact absurd h (by decide)
  have h3 : ¬ c = Char.ofNat 8 := by intro e; subst e; exact absurd h (by decide)
  have h4 : ¬ c = Char.ofNat 9 := by intro e; subst e; exact absurd h (by decide)
  have h5 : ¬ c = Char.ofNat 10 := by intro e; subst e; exact absurd h (by decide)
  have h6 : ¬ c = Char.ofNat 12 := by intro e; subst e; exact absurd h (by decide)
  have h7 : ¬ c = Char.ofNat 13 := by intro e; subst e; exact absurd h (by decide)
  have h8 : ¬ (32 ≤ c.toNat ∧ c.toNat ≤ 126) := by omega
  have h9 : ¬ c.toNat < 65536 := by omega
  simp only [encodeChar, if_neg h1, if_neg h2, if_neg h3, if_neg h4, if_neg h5, if_neg h6,
    if_neg h7, if_neg h8, if_neg h9]

theorem parseStrBody_roundtrip (s : List Char) : ∀ (f : Nat) (rest : List Char),
    s.length < f → parseStrBody f (encBody s ++ ('"' :: rest)) = some (s, rest) := by
  induction s with
  | nil =>
    intro f rest h
    obtain ⟨g, rfl⟩ : ∃ g, f = g + 1 := ⟨f - 1, by omega⟩
    simp only [encBody, List.flatMap_nil, List.nil_append, psb_close]
  | cons c t ih =>
    intro f rest h
    obtain ⟨g, rfl⟩ : ∃ g, f = g + 1 := ⟨f - 1, by omega⟩
    have ht : t.length < g := by simp only [List.length_cons] at h; omega
    have IH := ih g rest ht
    have hEB : encBody (c :: t) = encodeChar c ++ encBody t := by
      simp [encBody]
    rw [hEB, List.append_assoc]
    by_cases h1 : c = '"'
    · subst h1
      rw [encodeChar_quot]
      simp only [List.cons_append, List.nil_append]
      rw [psb_esc_quot, IH]
      rfl
    by_cases h2 : c = '\\'
    · subst h2
      rw [encodeChar_bs]
      simp only [List.cons_append, List.nil_append]
      rw [psb_esc_bs, IH]
      rfl
    by_cases h3 : c = Char.ofNat 8
    · subst h3
      rw [encodeChar_b]
      simp only [List.cons_append, List.nil_append]
      rw [psb_esc_b, IH]
      rfl
    by_cases h4 : c = Char.ofNat 9
    · subst h4
      rw [encodeChar_t]
      simp only [List.cons_append, List.nil_append]
      rw [psb_esc_t, IH]
      rfl
    by_cases h5 : c = Char.ofNat 10
    · subst h5
      rw [encodeChar_n]
      simp only [List.cons_append, List.nil_append]
      rw [psb_esc_n, IH]
      rfl
    by_cases h6 : c = Char.ofNat 12
    · subst h6
      rw [encodeChar_f]
      simp only [List.cons_append, List.nil_append]
      rw [psb_esc_f, IH]
      rfl
    by_cases h7 : c = Char.ofNat 13
    · subst h7
      rw [encodeChar_r]
      simp only [List.cons_append, List.nil_append]
      rw [psb_esc_r, IH]
      rfl
    by_cases h8 : 32 ≤ c.toNat ∧ c.toNat ≤ 126
    · rw [encodeChar_print c h1 h2 h8]
      simp only [List.cons_append, List.nil_append]
      rw [psb_other g c _ h1 h2 (by omega), IH]
      rfl
    by_cases h9 : c.toNat < 65536
    · rw [encodeChar_ctl c h1 h2 h3 h4 h5 h6 h7 h8 h9]
      simp only [List.cons_append, List.nil_append]
      rw [psb_esc_u]
      have hs : ¬ (55296 ≤ c.toNat ∧ c.toNat ≤ 56319) := by
        rcases char_toNat_valid c with hv | hv <;> omega
      rw [parseUEscape_bmp _ _ _ h9 hs, char_ofNat_toNat, IH]
      rfl
    · have h10 : 65536 ≤ c.toNat := by omega
      have hv : c.toNat < 1114112 := by
        rcases char_toNat_valid c with hv | hv <;> omega
      rw [encodeChar_astral c h10]
      simp only [List.cons_append, List.nil_append, List.append_assoc]
      rw [psb_esc_u]
      have hhi : 55296 ≤ 55296 + (c.toNat - 65536) / 1024 ∧
          55296 + (c.toNat - 65536) / 1024 ≤ 56319 := by omega
      have hlo : 56320 ≤ 56320 + (c.toNat - 65536) % 1024 ∧
          56320 + (c.toNat - 65536) % 1024 ≤ 57343 := by omega
      rw [parseUEscape_sur _ _ _ _ hhi hlo]
      have hc : 65536 + (55296 + (c.toNat - 65536) / 1024 - 55296) * 1024 +
          (56320 + (c.toNat - 65536) % 1024 - 56320) = c.toNat := by omega
      rw [hc, char_ofNat_toNat, IH]
      rfl

/-! ### Scanner reduction equations -/

theorem skipWs_not (c : Char) (r : List Char) (h : isWs c = false) :
    skipWs (c :: r) = c :: r := by
  simp [skipWs, h]

theorem skipWs_space (r : List Char) : skipWs (' ' :: r) = skipWs r := rfl

theorem pcv_str (f : Nat) (X : List Char) :
    parseCore (f + 1) PMode.val ('"' :: X) =
      (match parseStrBody (X.length + 1) X with
       | some (s, r) => some (PyVal.vStr s, r)
       | none => none) := rfl

theorem pcv_obj (f : Nat) (X : List Char) :
    parseCore (f + 1) PMode.val ('\x7b' :: X) =
      (match skipWs X with
       | '\x7d' :: r => some (PyVal.vObj [], r)
       | '"' :: r => parseCore f (PMode.members []) r
       | _ => none) := rfl

theorem pcv_arr (f : Nat) (X : List Char) :
    parseCore (f + 1) PMode.val ('[' :: X) =
      (match skipWs X with
       | ']' :: r => some (PyVal.vList [], r)
       | r => parseCore f (PMode.items []) r) := rfl

theorem pc_items (f : Nat) (acc : List PyVal) (input : List Char) :
    parseCore (f + 1) (PMode.items acc) input =
      (match parseCore f PMode.val input with
       | none => none
       | some (v, r) =>
         match skipWs r with
         | ']' :: r2 => some (PyVal.vList (acc ++ [v]), r2)
         | ',' :: r2 => parseCore f (PMode.items (acc ++ [v])) (skipWs r2)
         | _ => none) := rfl

theorem pc_members (f : Nat) (acc : List (List Char × PyVal)) (input : List Char) :
    parseCore (f + 1) (PMode.members acc) input =
      (match parseStrBody (input.length + 1) input with
       | none => none
       | some (key, r1) =>
         match skipWs r1 with
         | ':' :: r2 =>
           (match parseCore f PMode.val (skipWs r2) with
            | none => none
            | some (v, r3) =>
              match skipWs r3 with
              | '\x7d' :: r4 => some (PyVal.vObj (dictSet acc key v), r4)
              | ',' :: r4 =>
                (match skipWs r4 with
                 | '"' :: r5 => parseCore f (PMode.members (dictSet acc key v)) r5
                 | _ => none)
              | _ => none)
         | _ => none) := rfl

theorem pc_items_done (f : Nat) (acc : List PyVal) (input : List Char) (v : PyVal)
    (r2 : List Char) (hv : parseCore f PMode.val input = some (v, ']' :: r2)) :
    parseCore (f + 1) (PMode.items acc) input = some (PyVal.vList (acc ++ [v]), r2) := by
  rw [pc_items, hv]
  exact rfl

theorem pc_items_cont (f : Nat) (acc : List PyVal) (input : List Char) (v : PyVal)
    (r2 : List Char) (hv : parseCore f PMode.val input = some (v, ',' :: r2)) :
    parseCore (f + 1) (PMode.items acc) input =
      parseCore f (PMode.items (acc ++ [v])) (skipWs r2) := by
  rw [pc_items, hv]
  exact rfl

theorem pc_members_step (f : Nat) (acc : List (List Char × PyVal)) (input : List Char)
    (key r2 : List Char)
    (hk : parseStrBody (input.length + 1) input = some (key, ':' :: r2)) :
    parseCore (f + 1) (PMode.members acc) input =
      (match parseCore f PMode.val (skipWs r2) with
       | none => none
       | some (v, r3) =>
         match skipWs r3 with
         | '\x7d' :: r4 => some (PyVal.vObj (dictSet acc key v), r4)
         | ',' :: r4 =>
           (match skipWs r4 with
            | '"' :: r5 => parseCore f (PMode.members (dictSet acc key v)) r5
            | _ => none)
         | _ => none) := by
  rw [pc_members, hk]
  exact rfl

/-! ### Parsing the encoded values back -/

theorem pc_val_string (f : Nat) (s rest : List Char) :
    parseCore (f + 1) PMode.val (encodeStr s ++ rest) = some (PyVal.vStr s, rest) := by
  have hsh : encodeStr s ++ rest = '"' :: (encBody s ++ ('"' :: rest)) := by
    simp [encodeStr]
  rw [hsh, pcv_str]
  rw [parseStrBody_roundtrip s ((encBody s ++ ('"' :: rest)).length + 1) rest (by
    have := length_le_encBody s
    simp only [List.length_append, List.length_cons]
    omega)]

theorem sepJoin_quote_head (y : List Char) (tl2 : List (List Char)) :
    ∃ T, sepJoin [',', ' '] ((y :: tl2).map encodeStr) = '"' :: T := by
  cases tl2 <;> exact ⟨_, rfl⟩

theorem items_go (xs : List (List Char)) : ∀ (f : Nat) (acc : List PyVal) (rest : List Char),
    xs ≠ [] → xs.length + 1 ≤ f →
    parseCore f (PMode.items acc) (sepJoin [',', ' '] (xs.map encodeStr) ++ (']' :: rest)) =
      some (PyVal.vList (acc ++ xs.map PyVal.vStr), rest) := by
  induction xs with
  | nil => intro f acc rest hne _; exact absurd rfl hne
  | cons x tl ih =>
    intro f acc rest _ hlen
    obtain ⟨g, rfl⟩ : ∃ g, f = g + 1 := ⟨f - 1, by omega⟩
    have hg : 1 ≤ g := by simp only [List.length_cons] at hlen; omega
    obtain ⟨g', rfl⟩ : ∃ g', g = g' + 1 := ⟨g - 1, by omega⟩
    cases tl with
    | nil =>
      have hx : sepJoin [',', ' '] ([x].map encodeStr) ++ (']' :: rest) =
          encodeStr x ++ (']' :: rest) := rfl
      rw [hx, pc_items_done _ _ _ _ _ (pc_val_string g' x (']' :: rest))]
      simp
    | cons y tl2 =>
      have hshape : sepJoin [',', ' '] ((x :: y :: tl2).map encodeStr) ++ (']' :: rest) =
          encodeStr x ++ (',' :: (' ' ::
            (sepJoin [',', ' '] ((y :: tl2).map encodeStr) ++ (']' :: rest)))) := by
        simp [sepJoin, List.append_assoc]
      rw [hshape, pc_items_cont _ _ _ _ _ (pc_val_string g' x _)]
      have hsw : skipWs (' ' ::
          (sepJoin [',', ' '] ((y :: tl2).map encodeStr) ++ (']' :: rest))) =
          sepJoin [',', ' '] ((y :: tl2).map encodeStr) ++ (']' :: rest) := by
        obtain ⟨T, hT⟩ := sepJoin_quote_head y tl2
        rw [skipWs_space, hT, List.cons_append, skipWs_not _ _ (by decide)]
      rw [hsw]
      rw [ih (g' + 1) (acc ++ [PyVal.vStr x]) rest (by simp) (by
        simp only [List.length_cons] at hlen ⊢
        omega)]
      simp

theorem pc_val_strlist (f : Nat) (xs : List (List Char)) (rest : List Char)
    (hlen : xs.length + 1 ≤ f) :
    parseCore (f + 1) PMode.val (encodeStrList xs ++ rest) =
      some (PyVal.vList (xs.map PyVal.vStr), rest) := by
  have hsh : encodeStrList xs ++ rest =
      '[' :: (sepJoin [',', ' '] (xs.map encodeStr) ++ (']' :: rest)) := by
    simp [encodeStrList]
  rw [hsh]
  cases xs with
  | nil => exact rfl
  | cons x tl =>
    obtain ⟨T, hT⟩ := sepJoin_quote_head x tl
    rw [pcv_arr, hT, List.cons_append, skipWs_not _ _ (by decide)]
    show parseCore f (PMode.items []) ('"' :: (T ++ (']' :: rest))) = _
    rw [← List.cons_append, ← hT]
    rw [items_go (x :: tl) f [] rest (by simp) hlen]
    simp

/-! ### Object members: one member at a time -/

theorem encodeStr_head (s : List Char) :
    ∃ c T, encodeStr s = c :: T ∧ isWs c = false :=
  ⟨'"', _, rfl, by decide⟩

theorem encodeStrList_head (xs : List (List Char)) :
    ∃ c T, encodeStrList xs = c :: T ∧ isWs c = false :=
  ⟨'[', _, rfl, by decide⟩

theorem pc_members_more (f : Nat) (acc : List (List Char × PyVal)) (key venc : List Char)
    (v : PyVal) (tail : List Char)
    (hv : ∀ r', parseCore f PMode.val (venc ++ r') = some (v, r'))
    (hhead : ∃ c T, venc = c :: T ∧ isWs c = false) :
    parseCore (f + 1) (PMode.members acc)
        (encBody key ++ ('"' :: (':' :: (' ' :: (venc ++ (',' :: (' ' :: ('"' :: tail)))))))) =
      parseCore f (PMode.members (dictSet acc key v)) tail := by
  have hlen : key.length <
      (encBody key ++
        ('"' :: (':' :: (' ' :: (venc ++ (',' :: (' ' :: ('"' :: tail)))))))).length + 1 := by
    have := length_le_encBody key
    simp only [List.length_append, List.length_cons]
    omega
  rw [pc_members_step _ _ _ _ _ (parseStrBody_roundtrip key _ _ hlen)]
  have hsw : skipWs (' ' :: (venc ++ (',' :: (' ' :: ('"' :: tail))))) =
      venc ++ (',' :: (' ' :: ('"' :: tail))) := by
    obtain ⟨c, T, hvc, hws⟩ := hhead
    rw [skipWs_space, hvc, List.cons_append, skipWs_not _ _ hws]
  rw [hsw, hv (',' :: (' ' :: ('"' :: tail)))]
  exact rfl

theorem pc_members_last (f : Nat) (acc : List (List Char × PyVal)) (key venc : List Char)
    (v : PyVal) (rest : List Char)
    (hv : ∀ r', parseCore f PMode.val (venc ++ r') = some (v, r'))
    (hhead : ∃ c T, venc = c :: T ∧ isWs c = false) :
    parseCore (f + 1) (PMode.members acc)
        (encBody key ++ ('"' :: (':' :: (' ' :: (venc ++ ('\x7d' :: rest)))))) =
      some (PyVal.vObj (dictSet acc key v), rest) := by
  have hlen : key.length <
      (encBody key ++ ('"' :: (':' :: (' ' :: (venc ++ ('\x7d' :: rest)))))).length + 1 := by
    have := length_le_encBody key
    simp only [List.length_append, List.length_cons]
    omega
  rw [pc_members_step _ _ _ _ _ (parseStrBody_roundtrip key _ _ hlen)]
  have hsw : skipWs (' ' :: (venc ++ ('\x7d' :: rest))) = venc ++ ('\x7d' :: rest) := by
    obtain ⟨c, T, hvc, hws⟩ := hhead
    rw [skipWs_space, hvc, List.cons_append, skipWs_not _ _ hws]
  rw [hsw, hv ('\x7d' :: rest)]
  exact rfl

theorem pcv_obj_quote (f : Nat) (T : List Char) :
    parseCore (f + 1) PMode.val ('\x7b' :: ('"' :: T)) =
      parseCore f (PMode.members []) T := rfl

theorem roundtrip_core (X : ComplianceResult) (F : Nat) (rest : List Char)
    (hF : X.requirements_met.length + X.requirements_missed.length +
      X.recommendations.length + 9 ≤ F) :
    parseCore F PMode.val ('\x7b' :: (dumpsBody X ++ ('\x7d' :: rest))) =
      some (PyVal.vObj (toDict X), rest) := by
  obtain ⟨F1, rfl⟩ : ∃ m, F = m + 1 := ⟨F - 1, by omega⟩
  obtain ⟨F2, rfl⟩ : ∃ m, F1 = m + 1 := ⟨F1 - 1, by omega⟩
  obtain ⟨F3, rfl⟩ : ∃ m, F2 = m + 1 := ⟨F2 - 1, by omega⟩
  obtain ⟨F4, rfl⟩ : ∃ m, F3 = m + 1 := ⟨F3 - 1, by omega⟩
  obtain ⟨F5, rfl⟩ : ∃ m, F4 = m + 1 := ⟨F4 - 1, by omega⟩
  obtain ⟨F6, rfl⟩ : ∃ m, F5 = m + 1 := ⟨F5 - 1, by omega⟩
  obtain ⟨F7, rfl⟩ : ∃ m, F6 = m + 1 := ⟨F6 - 1, by omega⟩
  obtain ⟨F8, rfl⟩ : ∃ m, F7 = m + 1 := ⟨F7 - 1, by omega⟩
  have hBig : dumpsBody X ++ ('\x7d' :: rest) =
      '"' :: (encBody "status".data ++ ('"' :: (':' :: (' ' ::
        (encodeStr X.status ++ (',' :: (' ' :: ('"' ::
      (encBody "requirements_met".data ++ ('"' :: (':' :: (' ' ::
        (encodeStrList X.requirements_met ++ (',' :: (' ' :: ('"' ::
      (encBody "requirements_missed".data ++ ('"' :: (':' :: (' ' ::
        (encodeStrList X.requirements_missed ++ (',' :: (' ' :: ('"' ::
      (encBody "recommendations".data ++ ('"' :: (':' :: (' ' ::
        (encodeStrList X.recommendations ++ (',' :: (' ' :: ('"' ::
      (encBody "risk_level".data ++ ('"' :: (':' :: (' ' ::
        (encodeStr X.risk_level ++ (',' :: (' ' :: ('"' ::
      (encBody "explanation".data ++ ('"' :: (':' :: (' ' ::
        (encodeStr X.explanation ++
          ('\x7d' :: rest)))))))))))))))))))))))))))))))))))))))))))))) := by
    simp [dumpsBody, encodeStr, List.append_assoc]
  rw [hBig, pcv_obj_quote]
  rw [pc_members_more _ _ _ _ _ _
    (fun r' => pc_val_string (F8 + 1 + 1 + 1 + 1 + 1) X.status r')
    (encodeStr_head X.status)]
  rw [pc_members_more _ _ _ _ _ _
    (fun r' => pc_val_strlist (F8 + 1 + 1 + 1 + 1) X.requirements_met r' (by omega))
    (encodeStrList_head X.requirements_met)]
  rw [pc_members_more _ _ _ _ _ _
    (fun r' => pc_val_strlist (F8 + 1 + 1 + 1) X.requirements_missed r' (by omega))
    (encodeStrList_head X.requirements_missed)]
  rw [pc_members_more _ _ _ _ _ _
    (fun r' => pc_val_strlist (F8 + 1 + 1) X.recommendations r' (by omega))
    (encodeStrList_head X.recommendations)]
  rw [pc_members_more _ _ _ _ _ _
    (fun r' => pc_val_string (F8 + 1) X.risk_level r')
    (encodeStr_head X.risk_level)]
  rw [pc_members_last _ _ _ _ _ _ (fun r' => pc_val_string F8 X.explanation r')
    (encodeStr_head X.explanation)]
  exact rfl

/-! ### The dumps output is long enough for its own fuel -/

theorem two_le_length_encodeStr (s : List Char) : 2 ≤ (encodeStr s).length := by
  simp [encodeStr]

theorem sepJoin_enc_length (xs : List (List Char)) :
    xs.length ≤ (sepJoin [',', ' '] (xs.map encodeStr)).length := by
  induction xs with
  | nil => simp [sepJoin]
  | cons x tl ih =>
    cases tl with
    | nil =>
      have := two_le_length_encodeStr x
      simp only [List.map_cons, List.map_nil, sepJoin, List.length_cons, List.length_nil]
      omega
    | cons y tl2 =>
      have hx := two_le_length_encodeStr x
      simp only [List.map_cons, sepJoin, List.length_append, List.length_cons] at *
      omega

theorem encodeStrList_length (xs : List (List Char)) :
    xs.length + 2 ≤ (encodeStrList xs).length := by
  have := sepJoin_enc_length xs
  simp only [encodeStrList, List.length_cons, List.length_append]
  omega

theorem dumps_fuel (X : ComplianceResult) :
    X.requirements_met.length + X.requirements_missed.length +
      X.recommendations.length + 9 ≤ (dumpsResult X).length + 1 := by
  have h1 := encodeStrList_length X.requirements_met
  have h2 := encodeStrList_length X.requirements_missed
  have h3 := encodeStrList_length X.recommendations
  have h4 := two_le_length_encodeStr X.status
  have h5 := two_le_length_encodeStr X.risk_level
  have h6 := two_le_length_encodeStr X.explanation
  simp only [dumpsResult, dumpsBody, List.length_cons, List.length_append]
  omega

theorem json_loads_dumps (X : ComplianceResult) :
    json_loads (dumpsResult X) = some (PyVal.vObj (toDict X)) := by
  have h0 : skipWs (dumpsResult X) = dumpsResult X :=
    skipWs_not _ _ (by decide)
  have hF : X.requirements_met.length + X.requirements_missed.length +
      X.recommendations.length + 9 ≤ (dumpsResult X).length + 1 := dumps_fuel X
  have hrun : parseCore ((dumpsResult X).length + 1) PMode.val (dumpsResult X) =
      some (PyVal.vObj (toDict X), []) := roundtrip_core X _ [] hF
  simp only [json_loads, h0, hrun]
  exact rfl

/-! ### find, rfind, slicing -/

theorem strFindAux_cons_self (c : Char) (r : List Char) (i : Nat) :
    strFindAux c (c :: r) i = some i := by
  simp [strFindAux]

theorem strFindAux_not_mem (c : Char) (s : List Char) (h : c ∉ s) :
    ∀ i, strFindAux c s i = none := by
  induction s with
  | nil => intro i; rfl
  | cons x xs ih =>
    intro i
    simp only [List.mem_cons, not_or] at h
    have hxc : ¬ (x = c) := fun e => h.1 e.symm
    simp only [strFindAux, if_neg hxc]
    exact ih h.2 (i + 1)

theorem strFind_not_mem (s : List Char) (c : Char) (h : c ∉ s) : strFind s c = -1 := by
  unfold strFind
  rw [strFindAux_not_mem c s h 0]

theorem strFind_dumps (X : ComplianceResult) : strFind (dumpsResult X) '\x7b' = 0 := rfl

theorem strRfind_dumps (X : ComplianceResult) :
    strRfind (dumpsResult X) '\x7d' = ((dumpsBody X).length : Int) + 1 := by
  unfold strRfind dumpsResult
  have hrev : ('\x7b' :: (dumpsBody X ++ ['\x7d'])).reverse =
      '\x7d' :: ((dumpsBody X).reverse ++ ['\x7b']) := by
    simp
  rw [hrev, strFindAux_cons_self]
  simp only [List.length_cons, List.length_append, List.length_nil]
  push_cast
  omega

theorem strSlice_full (s : List Char) : strSlice s 0 ((s.length : Int)) = s := by
  simp [strSlice]

theorem extractJson_dumps (X : ComplianceResult) :
    extractJson (dumpsResult X) = some (PyVal.vObj (toDict X)) := by
  unfold extractJson
  rw [strFind_dumps, strRfind_dumps]
  rw [if_pos ⟨by decide, by omega⟩]
  have hlen : ((dumpsBody X).length : Int) + 1 + 1 = ((dumpsResult X).length : Int) := by
    simp only [dumpsResult, List.length_cons, List.length_append, List.length_nil]
    push_cast
    omega
  rw [hlen, strSlice_full]
  exact json_loads_dumps X

/-! ### Lookup and setdefault lemmas -/

theorem lookup_append_right (d : List (List Char × PyVal)) (k : List Char) (v : PyVal)
    (h : d.lookup k = none) : (d ++ [(k, v)]).lookup k = some v := by
  induction d with
  | nil => simp [List.lookup]
  | cons p tl ih =>
    obtain ⟨a, b⟩ := p
    rw [List.cons_append]
    simp only [List.lookup] at h ⊢
    cases hab : k == a with
    | true => rw [hab] at h; exact Option.noConfusion h
    | false => rw [hab] at h; exact ih h

theorem lookup_append_other (d : List (List Char × PyVal)) (k k2 : List Char) (v : PyVal)
    (hne : (k == k2) = false) : (d ++ [(k2, v)]).lookup k = d.lookup k := by
  induction d with
  | nil => simp [List.lookup, hne]
  | cons p tl ih =>
    obtain ⟨a, b⟩ := p
    rw [List.cons_append]
    simp only [List.lookup]
    cases hab : k == a with
    | true => rfl
    | false => exact ih

theorem lookup_setdefault_self (d : List (List Char × PyVal)) (k : List Char) (v : PyVal) :
    (setdefault d k v).lookup k = some ((d.lookup k).getD v) := by
  unfold setdefault
  cases h : d.lookup k with
  | some w => simp [h]
  | none => simp [lookup_append_right d k v h]

theorem lookup_setdefault_other (d : List (List Char × PyVal)) (k k2 : List Char) (v : PyVal)
    (hne : (k == k2) = false) : (setdefault d k2 v).lookup k = d.lookup k := by
  unfold setdefault
  cases h : d.lookup k2 with
  | some w => rfl
  | none => exact lookup_append_other d k k2 v hne

/-! ### Per-field behavior of the defaulting pass -/

theorem applyDefaults_status (d : List (List Char × PyVal)) :
    (applyDefaults d).lookup "status".data =
      some ((d.lookup "status".data).getD (PyVal.vStr "Unknown".data)) := by
  simp only [applyDefaults]
  rw [lookup_setdefault_other _ _ _ _ (by decide), lookup_setdefault_other _ _ _ _ (by decide),
    lookup_setdefault_other _ _ _ _ (by decide), lookup_setdefault_other _ _ _ _ (by decide),
    lookup_setdefault_other _ _ _ _ (by decide), lookup_setdefault_self]

theorem applyDefaults_met (d : List (List Char × PyVal)) :
    (applyDefaults d).lookup "requirements_met".data =
      some ((d.lookup "requirements_met".data).getD (PyVal.vList [])) := by
  simp only [applyDefaults]
  rw [lookup_setdefault_other _ _ _ _ (by decide), lookup_setdefault_other _ _ _ _ (by decide),
    lookup_setdefault_other _ _ _ _ (by decide), lookup_setdefault_other _ _ _ _ (by decide),
    lookup_setdefault_self, lookup_setdefault_other _ _ _ _ (by decide)]

theorem applyDefaults_missed (d : List (List Char × PyVal)) :
    (applyDefaults d).lookup "requirements_missed".data =
      some ((d.lookup "requirements_missed".data).getD (PyVal.vList [])) := by
  simp only [applyDefaults]
  rw [lookup_setdefault_other _ _ _ _ (by decide), lookup_setdefault_other _ _ _ _ (by decide),
    lookup_setdefault_other _ _ _ _ (by decide), lookup_setdefault_self,
    lookup_setdefault_other _ _ _ _ (by decide), lookup_setdefault_other _ _ _ _ (by decide)]

theorem applyDefaults_recs (d : List (List Char × PyVal)) :
    (applyDefaults d).lookup "recommendations".data =
      some ((d.lookup "recommendations".data).getD (PyVal.vList [])) := by
  simp only [applyDefaults]
  rw [lookup_setdefault_other _ _ _ _ (by decide), lookup_setdefault_other _ _ _ _ (by decide),
    lookup_setdefault_self, lookup_setdefault_other _ _ _ _ (by decide),
    lookup_setdefault_other _ _ _ _ (by decide), lookup_setdefault_other _ _ _ _ (by decide)]

theorem applyDefaults_risk (d : List (List Char × PyVal)) :
    (applyDefaults d).lookup "risk_level".data =
      some ((d.lookup "risk_level".data).getD (PyVal.vStr "Medium".data)) := by
  simp only [applyDefaults]
  rw [lookup_setdefault_other _ _ _ _ (by decide), lookup_setdefault_self,
    lookup_setdefault_other _ _ _ _ (by decide), lookup_setdefault_other _ _ _ _ (by decide),
    lookup_setdefault_other _ _ _ _ (by decide), lookup_setdefault_other _ _ _ _ (by decide)]

theorem applyDefaults_expl (d : List (List Char × PyVal)) :
    (applyDefaults d).lookup "explanation".data =
      some ((d.lookup "explanation".data).getD
        (PyVal.vStr "No explanation provided".data)) := by
  simp only [applyDefaults]
  rw [lookup_setdefault_self, lookup_setdefault_other _ _ _ _ (by decide),
    lookup_setdefault_other _ _ _ _ (by decide), lookup_setdefault_other _ _ _ _ (by decide),
    lookup_setdefault_other _ _ _ _ (by decide), lookup_setdefault_other _ _ _ _ (by decide)]

theorem applyDefaults_populated (d : List (List Char × PyVal)) :
    fullyPopulated (applyDefaults d) = true := by
  simp only [fullyPopulated]
  rw [applyDefaults_status d, applyDefaults_met d, applyDefaults_missed d,
    applyDefaults_recs d, applyDefaults_risk d, applyDefaults_expl d]
  simp

/-! ### Handler-level reductions -/

theorem validate_missing (d : List (List Char × PyVal)) (p : Except (List Char) (List Char))
    (h : missingFields d = true) :
    validate d p = ⟨400, errorBody "Missing required fields".data⟩ := by
  unfold validate
  rw [if_pos h]

theorem validate_pass (d : List (List Char × PyVal)) (p : Except (List Char) (List Char))
    (h : missingFields d = false) : validate d p = handleProvider p := by
  unfold validate
  rw [if_neg (by simp [h])]

theorem handleProvider_ok (t : List Char) :
    handleProvider (Except.ok t) =
      (match normalizeResponse t with
       | Except.ok result => ⟨200, PyVal.vObj result⟩
       | Except.error exc =>
         ⟨500, errorBody ("Validation error: ".data ++ excStr exc)⟩) := rfl

/-! ### Infix helpers for the prompt -/

theorem infix_here (x t : List Char) : List.IsInfix x (x ++ t) :=
  ⟨[], t, by simp⟩

theorem infix_shift (x l2 l1 : List Char) (h : List.IsInfix x l2) :
    List.IsInfix x (l1 ++ l2) := by
  obtain ⟨s, t, hst⟩ := h
  exact ⟨l1 ++ s, t, by rw [← hst]; simp [List.append_assoc]⟩

/-! ### Claims -/

set_option maxRecDepth 500000

/-- C1, counterexample: on the reply text `["\x7b", "\x7d"]` the code
(brace extraction first) fails to decode and falls back, while the order
the claim describes (whole-text strict parse first) succeeds with a JSON
array; so the Normalizer does not attempt the whole-text parse first. -/
theorem C1_counterexample :
    extractJson "[\"\x7b\", \"\x7d\"]".data ≠
      extractJsonSpecOrder "[\"\x7b\", \"\x7d\"]".data := by
  intro h
  have h1 : extractJson "[\"\x7b\", \"\x7d\"]".data = none := rfl
  have h2 : extractJsonSpecOrder "[\"\x7b\", \"\x7d\"]".data =
      some (PyVal.vList [PyVal.vStr "\x7b".data, PyVal.vStr "\x7d".data]) := rfl
  rw [h1, h2] at h
  exact Option.noConfusion h

/-- C1, amended: the Normalizer first locates the first brace and the last
closing brace and, whenever that span is nonempty, parses the substring
between them (inclusive); only when no such span exists does it attempt a
strict parse of the entire text. -/
theorem C1_brace_first (t : List Char) :
    (strFind t '\x7b' ≠ -1 ∧ strRfind t '\x7d' + 1 > strFind t '\x7b' →
      extractJson t = json_loads (strSlice t (strFind t '\x7b') (strRfind t '\x7d' + 1))) ∧
    (¬ (strFind t '\x7b' ≠ -1 ∧ strRfind t '\x7d' + 1 > strFind t '\x7b') →
      extractJson t = json_loads t) := by
  constructor <;> intro h <;> unfold extractJson
  · rw [if_pos h]
  · rw [if_neg h]

/-- Witness for C1 at the brace-extraction example from the spec. -/
theorem C1_witness :
    (strFind "answer: \x7b\"status\": \"Non-Compliant\"\x7d ok".data '\x7b' ≠ -1 ∧
      strRfind "answer: \x7b\"status\": \"Non-Compliant\"\x7d ok".data '\x7d' + 1 >
        strFind "answer: \x7b\"status\": \"Non-Compliant\"\x7d ok".data '\x7b') ∧
    extractJson "answer: \x7b\"status\": \"Non-Compliant\"\x7d ok".data =
      json_loads (strSlice "answer: \x7b\"status\": \"Non-Compliant\"\x7d ok".data
        (strFind "answer: \x7b\"status\": \"Non-Compliant\"\x7d ok".data '\x7b')
        (strRfind "answer: \x7b\"status\": \"Non-Compliant\"\x7d ok".data '\x7d' + 1)) :=
  ⟨by decide, (C1_brace_first _).1 (by decide)⟩

/-- C2, counterexample: the provider reply `42` is not recovered by the
synthesis fallback; the handler returns 500, not 200, because the parsed
value is not a dict and `setdefault` raises. -/
theorem C2_counterexample :
    validate
      [("article".data, PyVal.vStr "15".data),
       ("request_type".data, PyVal.vStr "data_access".data),
       ("org_response".data, PyVal.vStr "Sent the data".data),
       ("response_time".data, PyVal.vInt 25)]
      (Except.ok "42".data) =
    ⟨500, errorBody
      "Validation error: \x27int\x27 object has no attribute \x27setdefault\x27".data⟩ := rfl

/-- C2, amended: provider text on which JSON decoding fails (or which
parses to a JSON object) is fully recovered: the handler returns 200 with
a fully populated record.  Only text parsing to a non-object JSON value
escapes as a 500 validation error. -/
theorem C2_recovery_amended (d : List (List Char × PyVal)) (t : List Char)
    (hd : missingFields d = false)
    (hp : extractJson t = none ∨ ∃ kvs, extractJson t = some (PyVal.vObj kvs)) :
    ∃ res, validate d (Except.ok t) = ⟨200, PyVal.vObj res⟩ ∧
      fullyPopulated res = true := by
  rw [validate_pass d _ hd]
  rcases hp with hx | ⟨kvs, hx⟩
  · have hres : normalizeResponse t = Except.ok (applyDefaults (fallbackResult t)) := by
      unfold normalizeResponse
      rw [hx]
    refine ⟨applyDefaults (fallbackResult t), ?_, applyDefaults_populated _⟩
    rw [handleProvider_ok, hres]
  · have hres : normalizeResponse t = Except.ok (applyDefaults kvs) := by
      unfold normalizeResponse
      rw [hx]
    refine ⟨applyDefaults kvs, ?_, applyDefaults_populated _⟩
    rw [handleProvider_ok, hres]

/-- Witness for C2 on a prose reply with a valid request. -/
theorem C2_witness :
    missingFields
      [("article".data, PyVal.vStr "15".data),
       ("request_type".data, PyVal.vStr "data_access".data),
       ("org_response".data, PyVal.vStr "Sent the data".data),
       ("response_time".data, PyVal.vInt 25)] = false ∧
    ∃ res, validate
      [("article".data, PyVal.vStr "15".data),
       ("request_type".data, PyVal.vStr "data_access".data),
       ("org_response".data, PyVal.vStr "Sent the data".data),
       ("response_time".data, PyVal.vInt 25)]
      (Except.ok "No JSON here".data) = ⟨200, PyVal.vObj res⟩ ∧
      fullyPopulated res = true :=
  ⟨rfl, C2_recovery_amended _ _ rfl (Or.inl rfl)⟩

/-- C3: the reply `42` has no brace, the whole-text `json.loads` succeeds
with the integer 42, the `setdefault` step raises `AttributeError` (not
`JSONDecodeError`), and the handler surfaces it as a 500 validation
error. -/
theorem C3_nonobject_500 :
    json_loads "42".data = some (PyVal.vInt 42) ∧
    extractJson "42".data = some (PyVal.vInt 42) ∧
    normalizeResponse "42".data = Except.error (PyExc.attributeError "int".data) ∧
    validate
      [("article".data, PyVal.vStr "15".data),
       ("request_type".data, PyVal.vStr "data_access".data),
       ("org_response".data, PyVal.vStr "Sent the data".data),
       ("response_time".data, PyVal.vInt 25)]
      (Except.ok "42".data) =
      ⟨500, errorBody
        "Validation error: \x27int\x27 object has no attribute \x27setdefault\x27".data⟩ :=
  ⟨rfl, rfl, rfl, rfl⟩

/-- C4: a reply with no braces that is not valid JSON synthesizes the
default record verbatim: status `Analysis Complete`, empty lists, risk
`Medium`, and the whole raw text as the explanation. -/
theorem C4_fallback (t : List Char) (h1 : '\x7b' ∉ t) (_h2 : '\x7d' ∉ t)
    (h3 : json_loads t = none) :
    normalizeResponse t = Except.ok
      [("status".data, PyVal.vStr "Analysis Complete".data),
       ("requirements_met".data, PyVal.vList []),
       ("requirements_missed".data, PyVal.vList []),
       ("recommendations".data, PyVal.vList []),
       ("risk_level".data, PyVal.vStr "Medium".data),
       ("explanation".data, PyVal.vStr t)] := by
  have hx : extractJson t = none := by
    unfold extractJson
    rw [strFind_not_mem t _ h1]
    rw [if_neg (by simp)]
    exact h3
  unfold normalizeResponse
  rw [hx]
  exact rfl

/-- Witness for C4 at the example text from the spec. -/
theorem C4_witness :
    ('\x7b' ∉ "I think this is compliant overall.".data) ∧
    ('\x7d' ∉ "I think this is compliant overall.".data) ∧
    json_loads "I think this is compliant overall.".data = none ∧
    normalizeResponse "I think this is compliant overall.".data = Except.ok
      [("status".data, PyVal.vStr "Analysis Complete".data),
       ("requirements_met".data, PyVal.vList []),
       ("requirements_missed".data, PyVal.vList []),
       ("recommendations".data, PyVal.vList []),
       ("risk_level".data, PyVal.vStr "Medium".data),
       ("explanation".data, PyVal.vStr "I think this is compliant overall.".data)] :=
  ⟨by decide, by decide, rfl, C4_fallback _ (by decide) (by decide) rfl⟩

/-- C5: defaults are applied independently per field: each of the six
fields keeps its parsed value when present and takes its documented
default when absent; and the input with only `status` present keeps that
status and fills the other five defaults. -/
theorem C5_defaults :
    (∀ kvs : List (List Char × PyVal),
      (applyDefaults kvs).lookup "status".data =
        some ((kvs.lookup "status".data).getD (PyVal.vStr "Unknown".data)) ∧
      (applyDefaults kvs).lookup "requirements_met".data =
        some ((kvs.lookup "requirements_met".data).getD (PyVal.vList [])) ∧
      (applyDefaults kvs).lookup "requirements_missed".data =
        some ((kvs.lookup "requirements_missed".data).getD (PyVal.vList [])) ∧
      (applyDefaults kvs).lookup "recommendations".data =
        some ((kvs.lookup "recommendations".data).getD (PyVal.vList [])) ∧
      (applyDefaults kvs).lookup "risk_level".data =
        some ((kvs.lookup "risk_level".data).getD (PyVal.vStr "Medium".data)) ∧
      (applyDefaults kvs).lookup "explanation".data =
        some ((kvs.lookup "explanation".data).getD
          (PyVal.vStr "No explanation provided".data))) ∧
    normalizeResponse "\x7b\"status\": \"Compliant\"\x7d".data = Except.ok
      [("status".data, PyVal.vStr "Compliant".data),
       ("requirements_met".data, PyVal.vList []),
       ("requirements_missed".data, PyVal.vList []),
       ("recommendations".data, PyVal.vList []),
       ("risk_level".data, PyVal.vStr "Medium".data),
       ("explanation".data, PyVal.vStr "No explanation provided".data)] :=
  ⟨fun kvs => ⟨applyDefaults_status kvs, applyDefaults_met kvs, applyDefaults_missed kvs,
    applyDefaults_recs kvs, applyDefaults_risk kvs, applyDefaults_expl kvs⟩, rfl⟩

/-- C6: running the Normalizer on `json.dumps(X)` for any fully populated
result record X returns exactly X. -/
theorem C6_roundtrip (X : ComplianceResult) :
    normalizeResponse (dumpsResult X) = Except.ok (toDict X) := by
  unfold normalizeResponse
  rw [extractJson_dumps]
  exact rfl

/-- C7: a request whose body has no `response_time` key is rejected with
the 400 missing-fields error whatever the other fields hold, while a
request with `response_time = 0` and the other required fields present
(non-empty) passes validation and proceeds to the provider call. -/
theorem C7_response_time :
    (∀ (d : List (List Char × PyVal)) (p : Except (List Char) (List Char)),
      d.lookup "response_time".data = none →
      validate d p = ⟨400, errorBody "Missing required fields".data⟩) ∧
    (∀ (d : List (List Char × PyVal)) (p : Except (List Char) (List Char)),
      pyTruthy (dataGet d "article".data) = true →
      pyTruthy (dataGet d "request_type".data) = true →
      pyTruthy (dataGet d "org_response".data) = true →
      d.lookup "response_time".data = some (PyVal.vInt 0) →
      validate d p = handleProvider p) := by
  constructor
  · intro d p h
    apply validate_missing
    have hrt : isPyNone (dataGet d "response_time".data) = true := by
      simp [dataGet, h, isPyNone]
    simp [missingFields, hrt]
  · intro d p h1 h2 h3 h4
    apply validate_pass
    have hrt : isPyNone (dataGet d "response_time".data) = false := by
      simp [dataGet, h4, isPyNone]
    simp [missingFields, h1, h2, h3, hrt]

/-- Witness for C7: a request missing only `response_time` is rejected; the
same request with `response_time = 0` passes validation. -/
theorem C7_witness :
    validate
      [("article".data, PyVal.vStr "15".data),
       ("request_type".data, PyVal.vStr "data_access".data),
       ("org_response".data, PyVal.vStr "Sent the data".data)]
      (Except.ok "x".data) = ⟨400, errorBody "Missing required fields".data⟩ ∧
    validate
      [("article".data, PyVal.vStr "15".data),
       ("request_type".data, PyVal.vStr "data_access".data),
       ("org_response".data, PyVal.vStr "Sent the data".data),
       ("response_time".data, PyVal.vInt 0)]
      (Except.error "boom".data) = handleProvider (Except.error "boom".data) :=
  ⟨C7_response_time.1 _ _ rfl, C7_response_time.2 _ _ rfl rfl rfl rfl⟩

/-- C8: presence of `article`, `request_type` and `org_response` is decided
by truthiness: supplying any of them as the empty string yields the 400
missing-fields response even though the key is present; `response_time`
alone is tested with an is-not-None check, so even an empty-string
`response_time` passes validation. -/
theorem C8_truthiness :
    (∀ (d : List (List Char × PyVal)) (p : Except (List Char) (List Char)),
      (d.lookup "article".data = some (PyVal.vStr []) ∨
       d.lookup "request_type".data = some (PyVal.vStr []) ∨
       d.lookup "org_response".data = some (PyVal.vStr [])) →
      validate d p = ⟨400, errorBody "Missing required fields".data⟩) ∧
    (∀ (d : List (List Char × PyVal)) (p : Except (List Char) (List Char)),
      pyTruthy (dataGet d "article".data) = true →
      pyTruthy (dataGet d "request_type".data) = true →
      pyTruthy (dataGet d "org_response".data) = true →
      d.lookup "response_time".data = some (PyVal.vStr []) →
      validate d p = handleProvider p) := by
  constructor
  · intro d p h
    apply validate_missing
    rcases h with h | h | h
    · have ha : pyTruthy (dataGet d "article".data) = false := by
        simp [dataGet, h, pyTruthy]
      simp [missingFields, ha]
    · have ha : pyTruthy (dataGet d "request_type".data) = false := by
        simp [dataGet, h, pyTruthy]
      simp [missingFields, ha]
    · have ha : pyTruthy (dataGet d "org_response".data) = false := by
        simp [dataGet, h, pyTruthy]
      simp [missingFields, ha]
  · intro d p h1 h2 h3 h4
    apply validate_pass
    have hrt : isPyNone (dataGet d "response_time".data) = false := by
      simp [dataGet, h4, isPyNone]
    simp [missingFields, h1, h2, h3, hrt]

/-- Witness for C8: an empty-string `article` is rejected although the key
is present; an empty-string `response_time` still passes validation. -/
theorem C8_witness :
    validate
      [("article".data, PyVal.vStr []),
       ("request_type".data, PyVal.vStr "data_access".data),
       ("org_response".data, PyVal.vStr "Sent the data".data),
       ("response_time".data, PyVal.vInt 10)]
      (Except.ok "x".data) = ⟨400, errorBody "Missing required fields".data⟩ ∧
    validate
      [("article".data, PyVal.vStr "15".data),
       ("request_type".data, PyVal.vStr "data_access".data),
       ("org_response".data, PyVal.vStr "Sent the data".data),
       ("response_time".data, PyVal.vStr [])]
      (Except.error "boom".data) = handleProvider (Except.error "boom".data) :=
  ⟨C8_truthiness.1 _ _ (Or.inl rfl), C8_truthiness.2 _ _ rfl rfl rfl rfl⟩

/-- C9: an exception from the provider call after field validation is
caught at the handler boundary and surfaced as 500 with the exception text
embedded; and the handler is total, always answering 200, 400 or 500
(never terminating the process). -/
theorem C9_exception_500 :
    (∀ (d : List (List Char × PyVal)) (e : List Char),
      missingFields d = false →
      validate d (Except.error e) =
        ⟨500, errorBody ("Validation error: ".data ++ e)⟩) ∧
    (∀ (d : List (List Char × PyVal)) (p : Except (List Char) (List Char)),
      (validate d p).status = 200 ∨ (validate d p).status = 400 ∨
        (validate d p).status = 500) := by
  constructor
  · intro d e h
    rw [validate_pass _ _ h]
    rfl
  · intro d p
    unfold validate
    by_cases h : missingFields d = true
    · rw [if_pos h]
      right; left; rfl
    · rw [if_neg h]
      cases p with
      | error e => right; right; rfl
      | ok t =>
        rw [handleProvider_ok]
        cases hn : normalizeResponse t with
        | ok r => left; rfl
        | error exc => right; right; rfl

/-- Witness for C9 at a network-failure exception text. -/
theorem C9_witness :
    validate
      [("article".data, PyVal.vStr "15".data),
       ("request_type".data, PyVal.vStr "data_access".data),
       ("org_response".data, PyVal.vStr "Sent the data".data),
       ("response_time".data, PyVal.vInt 25)]
      (Except.error "Connection refused".data) =
      ⟨500, errorBody "Validation error: Connection refused".data⟩ :=
  C9_exception_500.1 _ "Connection refused".data rfl

/-- C10: the Prompt Builder output contains the literal request values
(article id, request type, organization response, the decimal rendering of
the response time, additional context) and the catalog description for the
article id, or the literal `Unknown article` placeholder when the id is
absent from the catalog, without failing. -/
theorem C10_prompt (article request_type org_response : List Char) (response_time : Int)
    (additional_context : List Char) :
    List.IsInfix article
      (buildPrompt article request_type org_response response_time additional_context) ∧
    List.IsInfix request_type
      (buildPrompt article request_type org_response response_time additional_context) ∧
    List.IsInfix org_response
      (buildPrompt article request_type org_response response_time additional_context) ∧
    List.IsInfix (intRepr response_time)
      (buildPrompt article request_type org_response response_time additional_context) ∧
    List.IsInfix additional_context
      (buildPrompt article request_type org_response response_time additional_context) ∧
    List.IsInfix ((GDPR_ARTICLES.lookup article).getD "Unknown article".data)
      (buildPrompt article request_type org_response response_time additional_context) ∧
    (GDPR_ARTICLES.lookup article = none →
      List.IsInfix "Unknown article".data
        (buildPrompt article request_type org_response response_time additional_context)) := by
  unfold buildPrompt compliancePrompt
  simp only [List.append_assoc]
  refine ⟨?_, ?_, ?_, ?_, ?_, ?_, ?_⟩
  · exact infix_shift _ _ _ (infix_here _ _)
  · exact infix_shift _ _ _ (infix_shift _ _ _ (infix_shift _ _ _ (infix_shift _ _ _
      (infix_shift _ _ _ (infix_shift _ _ _ (infix_shift _ _ _ (infix_here _ _)))))))
  · exact infix_shift _ _ _ (infix_shift _ _ _ (infix_shift _ _ _ (infix_shift _ _ _
      (infix_shift _ _ _ (infix_shift _ _ _ (infix_shift _ _ _ (infix_shift _ _ _
      (infix_shift _ _ _ (infix_here _ _)))))))))
  · exact infix_shift _ _ _ (infix_shift _ _ _ (infix_shift _ _ _ (infix_shift _ _ _
      (infix_shift _ _ _ (infix_shift _ _ _ (infix_shift _ _ _ (infix_shift _ _ _
      (infix_shift _ _ _ (infix_shift _ _ _ (infix_shift _ _ _
      (infix_here _ _)))))))))))
  · exact infix_shift _ _ _ (infix_shift _ _ _ (infix_shift _ _ _ (infix_shift _ _ _
      (infix_shift _ _ _ (infix_shift _ _ _ (infix_shift _ _ _ (infix_shift _ _ _
      (infix_shift _ _ _ (infix_shift _ _ _ (infix_shift _ _ _ (infix_shift _ _ _
      (infix_shift _ _ _ (infix_here _ _)))))))))))))
  · exact infix_shift _ _ _ (infix_shift _ _ _ (infix_shift _ _ _ (infix_shift _ _ _
      (infix_shift _ _ _ (infix_here _ _)))))
  · intro h
    rw [h]
    simp only [Option.getD_none]
    exact infix_shift _ _ _ (infix_shift _ _ _ (infix_shift _ _ _ (infix_shift _ _ _
      (infix_shift _ _ _ (infix_here _ _)))))

/-- Witness for C10 at an article id absent from the catalog. -/
theorem C10_witness :
    GDPR_ARTICLES.lookup "99".data = none ∧
    List.IsInfix "Unknown article".data
      (buildPrompt "99".data "data_access".data "Sent the data".data 25
        "None provided".data) :=
  ⟨rfl, (C10_prompt "99".data "data_access".data "Sent the data".data 25
    "None provided".data).2.2.2.2.2.2 rfl⟩

end GdprValidator
